import Mathlib

/-!
# Verification of the Quillist authentication core

Shallow embedding of the authentication subsystem of the Quillist book-review
backend (`src/auth/utils.py`, `src/auth/dependencies.py`, `src/auth/routes.py`,
`src/auth/service.py`, `src/db/redis.py`), together with theorems settling the
spec claims about it.

Modelling conventions:
* Time is a `Nat` of seconds; `now` is passed explicitly where the Python code
  calls `datetime.now()`.
* A signed JWT string is modelled as its payload together with the key it was
  signed with (`Jwt`); `decode_token` succeeds exactly when the verifying key
  matches the signing key and the expiry has not elapsed, mirroring PyJWT's
  signature and `exp` checks.
* An itsdangerous URL-safe token is modelled as its data together with the
  creation timestamp, signing secret and salt (`UrlsafeToken`).
* The Redis blocklist is a list of `jti` strings; the user table is a list of
  `UserRec`, looked up by email with `find?` as `select ... where email` does.
* Nondeterministic fresh values (`uuid.uuid4()`) are explicit parameters.
* bcrypt hashing/verification is an abstract function parameter where needed.
-/

/-- Identity claims put into a JWT payload by `login_users`:
`{"email": ..., "user_uid": ..., "role": ...}`. -/
structure UserClaims where
  email : String
  user_uid : String
  role : String
deriving DecidableEq, Repr

/-- JWT payload as built by `create_access_token` in `src/auth/utils.py`:
user claims, absolute expiry timestamp, fresh `jti`, and the refresh flag. -/
structure TokenPayload where
  user : UserClaims
  exp : Nat
  jti : String
  refresh : Bool
deriving DecidableEq, Repr

/-- A JWT bearer string, modelled as the payload it carries plus the secret it
was signed with. -/
structure Jwt where
  payload : TokenPayload
  signedWith : String
deriving DecidableEq, Repr

/-- `ACCESS_TOKEN_EXPIRY = 3600` from `src/auth/utils.py`. -/
def ACCESS_TOKEN_EXPIRY : Nat := 3600

/-- `create_access_token(user_data, expiry=None, refresh=False)` from
`src/auth/utils.py`: the payload expires at `now + expiry` (defaulting to
`ACCESS_TOKEN_EXPIRY` seconds) and is signed with the server secret.
`jti` stands for the fresh `uuid.uuid4()`. -/
def create_access_token (secret : String) (now : Nat) (jti : String)
    (user_data : UserClaims) (expiry : Option Nat) (refresh : Bool) : Jwt :=
  { payload :=
      { user := user_data
        exp := now + (match expiry with | some e => e | none => ACCESS_TOKEN_EXPIRY)
        jti := jti
        refresh := refresh }
    signedWith := secret }

/-- `decode_token(token)` from `src/auth/utils.py`: PyJWT verifies the
signature and the `exp` claim (a token is rejected when `exp <= now`), and the
wrapper returns `None` on any `PyJWTError` instead of raising. -/
def decode_token (secret : String) (now : Nat) (token : Jwt) : Option TokenPayload :=
  if token.signedWith = secret ∧ now < token.payload.exp then some token.payload else none

/-- `token_in_blocklist(jti)` from `src/db/redis.py`: existence check of the
`jti` key in Redis, modelled over the list of currently-live blocklist keys. -/
def token_in_blocklist (blocklist : List String) (jti : String) : Bool :=
  blocklist.contains jti

/-- The typed domain errors a bearer authenticator can raise
(`src/errors.py` / `src/auth/dependencies.py`). -/
inductive AuthError where
  | invalidToken
  | accessTokenRequired
  | refreshTokenRequired
deriving DecidableEq, Repr

/-- `AccessTokenBearer.verify_token_data` from `src/auth/dependencies.py`:
`if token_data and token_data["refresh"]: raise AccessTokenRequired()`. -/
def AccessTokenBearer.verify_token_data (token_data : TokenPayload) : Option AuthError :=
  if token_data.refresh then some .accessTokenRequired else none

/-- `RefreshTokenBearer.verify_token_data` from `src/auth/dependencies.py`:
`if token_data and not token_data["refresh"]: raise RefreshTokenRequired()`. -/
def RefreshTokenBearer.verify_token_data (token_data : TokenPayload) : Option AuthError :=
  if !token_data.refresh then some .refreshTokenRequired else none

/-- `TokenBearer.token_valid` from `src/auth/dependencies.py`: decode and test
the result against `None`. -/
def TokenBearer.token_valid (secret : String) (now : Nat) (token : Jwt) : Bool :=
  (decode_token secret now token).isSome

/-- `TokenBearer.__call__` from `src/auth/dependencies.py`, after the
`Authorization`-header credential has been extracted by `HTTPBearer`:
1. `token_valid` (a decode attempt) failing raises `InvalidToken`;
2. the token is decoded and its `jti` checked against the Redis blocklist,
   a hit raising the same `InvalidToken`;
3. `verify_token_data` (the kind check of the subclass) runs last;
4. otherwise the decoded payload is returned.
The subclass kind check is the `verify` parameter, as the spec's
"one shared pipeline parameterized by the kind check" describes. -/
def TokenBearer.call (verify : TokenPayload → Option AuthError)
    (secret : String) (now : Nat) (blocklist : List String) (token : Jwt) :
    Except AuthError TokenPayload :=
  if !TokenBearer.token_valid secret now token then .error .invalidToken
  else
    match decode_token secret now token with
    | none => .error .invalidToken
    | some token_data =>
      if token_in_blocklist blocklist token_data.jti then .error .invalidToken
      else
        match verify token_data with
        | some e => .error e
        | none => .ok token_data

/-- The user table row relevant to the auth core (`User` in
`src/db/models.py`). -/
structure UserRec where
  uid : String
  username : String
  email : String
  first_name : String
  last_name : String
  role : String
  is_verified : Bool
  password_hash : String
deriving DecidableEq, Repr

/-- `UserService.get_user_by_email` from `src/auth/service.py`:
`select(User).where(User.email == email)` then `.first()`. -/
def UserService.get_user_by_email (email : String) (users : List UserRec) : Option UserRec :=
  users.find? (fun u => u.email = email)

/-- Outcome of the `RoleChecker` dependency. -/
inductive RoleCheckResult where
  | accepted
  | accountNotVerified
  | insufficientPermission
deriving DecidableEq, Repr

/-- `RoleChecker.__call__` from `src/auth/dependencies.py`: raise
`AccountNotVerified` when `current_user.is_verified` is false, accept when the
role is in `allowed_roles`, otherwise raise `InsufficientPermission`. -/
def RoleChecker.call (allowed_roles : List String) (current_user : UserRec) :
    RoleCheckResult :=
  if !current_user.is_verified then .accountNotVerified
  else if allowed_roles.contains current_user.role then .accepted
  else .insufficientPermission

/-- The salt of the module-level `serializer` in `src/auth/utils.py`:
`URLSafeTimedSerializer(secret_key=Config.JWT_SECRET, salt="email-configuration")`.
Both `create_urlsafe_token` and `decode_urlsafe_token` go through this single
serializer. -/
def EMAIL_SALT : String := "email-configuration"

/-- An itsdangerous URL-safe timed token: the serialized data, the timestamp
the serializer embedded at creation, and the secret/salt it was signed with. -/
structure UrlsafeToken where
  data : List (String × String)
  createdAt : Nat
  secret : String
  salt : String
deriving DecidableEq, Repr

/-- `create_urlsafe_token(data)` from `src/auth/utils.py`: `serializer.dumps(data)`
with the module serializer (secret `Config.JWT_SECRET`, salt `EMAIL_SALT`);
itsdangerous embeds the current timestamp. -/
def create_urlsafe_token (secret : String) (now : Nat) (data : List (String × String)) :
    UrlsafeToken :=
  ⟨data, now, secret, EMAIL_SALT⟩

/-- `decode_urlsafe_token(token)` from `src/auth/utils.py`:
`serializer.loads(token)` is called WITHOUT a `max_age` argument, so
itsdangerous verifies only the signature (secret and salt); the embedded
timestamp is never compared against any max age, and the function takes no
notion of current time at all. Any exception is caught and `None` returned. -/
def decode_urlsafe_token (secret : String) (token : UrlsafeToken) :
    Option (List (String × String)) :=
  if token.secret = secret ∧ token.salt = EMAIL_SALT then some token.data else none

/-- Python `dict.get(k)` over the decoded data. -/
def dictGet (k : String) (d : List (String × String)) : Option String :=
  (d.find? (fun kv => kv.1 = k)).map (fun kv => kv.2)

/-- Replace the first user whose `email` matches, as
`UserService.update_user` mutates the single row fetched by
`get_user_by_email` and commits. -/
def updateFirstByEmail (email : String) (f : UserRec → UserRec) :
    List UserRec → List UserRec
  | [] => []
  | u :: rest =>
    if u.email = email then f u :: rest else u :: updateFirstByEmail email f rest

/-- The `{"is_verified": True}` update of `verify_user_account`. -/
def setVerified (u : UserRec) : UserRec :=
  ⟨u.uid, u.username, u.email, u.first_name, u.last_name, u.role, true, u.password_hash⟩

/-- The `{"password_hash": new_password_hash}` update of
`reset_account_password`. -/
def setPasswordHash (h : String) (u : UserRec) : UserRec :=
  ⟨u.uid, u.username, u.email, u.first_name, u.last_name, u.role, u.is_verified, h⟩

/-- Observable outcome of `GET /verify/{token}`. `attributeError` is the
unhandled `AttributeError` a `None` decode leads to (see
`verify_user_account`). -/
inductive VerifyResult where
  | verified
  | invalidVerificationToken
  | userNotFound
  | attributeError
deriving DecidableEq, Repr

/-- `verify_user_account(token)` from `src/auth/routes.py`. The source wraps
only the `decode_urlsafe_token(token)` call in `try/except`, but that function
never raises (it catches every exception internally and returns `None`), so the
`except` branch returning `InvalidVerificationToken` is unreachable; when the
decode fails the next line `decoded_token.get("email")` is executed on `None`
and raises an unhandled `AttributeError`, modelled as `.attributeError`.
On a decode that yields data the route rejects a missing or falsy (empty)
email, then looks the user up, then sets `is_verified` true. -/
def verify_user_account (secret : String) (users : List UserRec)
    (token : UrlsafeToken) : VerifyResult × List UserRec :=
  match decode_urlsafe_token secret token with
  | none => (.attributeError, users)
  | some decoded_token =>
    match dictGet "email" decoded_token with
    | none => (.invalidVerificationToken, users)
    | some email =>
      if email = "" then (.invalidVerificationToken, users)
      else
        match UserService.get_user_by_email email users with
        | none => (.userNotFound, users)
        | some _ => (.verified, updateFirstByEmail email setVerified users)

/-- The public-safe user summary `login_users` puts in its JSON response:
`{"uid", "email", "first_name", "last_name"}` — and nothing else. -/
structure UserSummary where
  uid : String
  email : String
  first_name : String
  last_name : String
deriving DecidableEq, Repr

/-- Builds the response's `"user"` object in `login_users`. -/
def login_user_summary (user : UserRec) : UserSummary :=
  ⟨user.uid, user.email, user.first_name, user.last_name⟩

/-- `REFRESH_TOKEN_EXPIRE_DAYS = 2` from `src/auth/routes.py`. -/
def REFRESH_TOKEN_EXPIRE_DAYS : Nat := 2

/-- Observable outcome of `POST /login`. -/
inductive LoginResult where
  | userNotFound
  | invalidCredentials
  | success (access_token : Jwt) (refresh_token : Jwt) (user : UserSummary)
deriving DecidableEq, Repr

/-- `login_users(login_data)` from `src/auth/routes.py`: look the user up by
email (`UserNotFound` when absent), verify the password against the stored
bcrypt hash (`InvalidCredentials` on mismatch), then issue an access token
(default expiry, `refresh=False`) and a refresh token
(`timedelta(days=REFRESH_TOKEN_EXPIRE_DAYS)`, `refresh=True`), both over the
same `{"email", "user_uid", "role"}` claims, plus the public user summary.
`verify_pw` abstracts bcrypt's `verify_password`; `jti_access`/`jti_refresh`
are the two fresh `uuid4` values. -/
def login_users (verify_pw : String → String → Bool) (secret : String) (now : Nat)
    (jti_access jti_refresh : String) (users : List UserRec)
    (email password : String) : LoginResult :=
  match UserService.get_user_by_email email users with
  | none => .userNotFound
  | some user =>
    if !verify_pw password user.password_hash then .invalidCredentials
    else
      .success
        (create_access_token secret now jti_access
          ⟨user.email, user.uid, user.role⟩ none false)
        (create_access_token secret now jti_refresh
          ⟨user.email, user.uid, user.role⟩
          (some (REFRESH_TOKEN_EXPIRE_DAYS * 86400)) true)
        (login_user_summary user)

/-- The reset email enqueued by `password_reset_request`: recipients and the
token embedded in the reset link. -/
structure ResetMail where
  recipients : List String
  token : UrlsafeToken
deriving DecidableEq, Repr

/-- The observable outcome of `POST /password-reset-request`: the JSON message,
the HTTP status, and the enqueued mail. -/
structure ResetRequestResponse where
  message : String
  status_code : Nat
  mail : ResetMail
deriving DecidableEq, Repr

/-- `password_reset_request(email_data)` from `src/auth/routes.py`: build a
URL-safe token over `{"email": email}`, enqueue the reset mail to that address,
and answer 200. The route takes no database session and performs no user
lookup; the `users` parameter is present only so that independence from the
user store is statable — the body never touches it. -/
def password_reset_request (secret : String) (now : Nat) (users : List UserRec)
    (email : String) : ResetRequestResponse :=
  let token := create_urlsafe_token secret now [("email", email)]
  { message := "Password reset link sent! Please check your email to reset your password."
    status_code := 200
    mail := { recipients := [email], token := token } }

/-- Observable outcome of `POST /password-reset-confirm/{token}`.
`attributeError` as in `VerifyResult`. -/
inductive ResetConfirmResult where
  | passwordReset
  | resetPasswordsDoNotMatch
  | invalidVerificationToken
  | userNotFound
  | attributeError
deriving DecidableEq, Repr

/-- `reset_account_password(token, passwords)` from `src/auth/routes.py`:
reject mismatched password fields first, then decode the token with the same
serializer as the verification flow (the dead `try/except` and the
`None.get` crash are exactly as in `verify_user_account`), look the user up by
the decoded email, and store the rehashed password. `hash_fn` abstracts
bcrypt's `generate_password_hash`. -/
def reset_account_password (hash_fn : String → String) (secret : String)
    (users : List UserRec) (token : UrlsafeToken)
    (new_password confirm_new_password : String) :
    ResetConfirmResult × List UserRec :=
  if new_password ≠ confirm_new_password then (.resetPasswordsDoNotMatch, users)
  else
    match decode_urlsafe_token secret token with
    | none => (.attributeError, users)
    | some decoded_token =>
      match dictGet "email" decoded_token with
      | none => (.invalidVerificationToken, users)
      | some email =>
        if email = "" then (.invalidVerificationToken, users)
        else
          match UserService.get_user_by_email email users with
          | none => (.userNotFound, users)
          | some _ =>
            (.passwordReset,
              updateFirstByEmail email (setPasswordHash (hash_fn new_password)) users)

/-- `UserCreateModel` from `src/auth/schemas.py` — the signup request body.
It has exactly these five fields; in particular there is no `role` field, and
pydantic drops any extra key supplied by the client. -/
structure UserCreateModel where
  username : String
  email : String
  password : String
  first_name : String
  last_name : String
deriving DecidableEq, Repr

/-- `UserService.create_user(user_data)` from `src/auth/service.py`:
`User(**user_data.model_dump())`, then `password_hash` is set from the hashed
password and `role` is assigned the literal `"user"` unconditionally;
`is_verified` keeps its model default `False` (`src/db/models.py`). `uid` is
the database-generated `uuid4`; `hash_fn` abstracts bcrypt. Returns the new
user and the committed store. -/
def UserService.create_user (hash_fn : String → String) (uid : String)
    (user_data : UserCreateModel) (users : List UserRec) :
    UserRec × List UserRec :=
  let new_user : UserRec :=
    ⟨uid, user_data.username, user_data.email, user_data.first_name,
      user_data.last_name, "user", false, hash_fn user_data.password⟩
  (new_user, users ++ [new_user])

/-- The verification token issued by `create_user_account` (signup) in
`src/auth/routes.py`: `create_urlsafe_token({"email": email})` — the same
constructor, serializer and salt as the reset-request flow. -/
def signup_verification_token (secret : String) (now : Nat) (email : String) :
    UrlsafeToken :=
  create_urlsafe_token secret now [("email", email)]

/-! ## Sample values used by witness theorems -/

def sampleClaims : UserClaims := ⟨"a@x.com", "u1", "user"⟩

def sampleAccessTok : Jwt := ⟨⟨sampleClaims, 3600, "j1", false⟩, "s"⟩

def sampleRefreshTok : Jwt := ⟨⟨sampleClaims, 3600, "j2", true⟩, "s"⟩

def sampleUser : UserRec :=
  ⟨"u1", "alice", "a@x.com", "Alice", "Ainsworth", "user", true, "h1"⟩

/-! ## Helper lemmas about the bearer pipeline -/

theorem decode_token_eq_payload {secret : String} {now : Nat} {token : Jwt}
    {d : TokenPayload} (h : decode_token secret now token = some d) :
    d = token.payload := by
  unfold decode_token at h
  split at h
  · exact (Option.some.inj h).symm
  · cases h

theorem TokenBearer.call_decode_none (verify : TokenPayload → Option AuthError)
    {secret : String} {now : Nat} (blocklist : List String) {token : Jwt}
    (hdec : decode_token secret now token = none) :
    TokenBearer.call verify secret now blocklist token = .error .invalidToken := by
  unfold TokenBearer.call TokenBearer.token_valid
  rw [hdec]
  rfl

theorem TokenBearer.call_decode_some (verify : TokenPayload → Option AuthError)
    {secret : String} {now : Nat} (blocklist : List String) {token : Jwt}
    {d : TokenPayload} (hdec : decode_token secret now token = some d) :
    TokenBearer.call verify secret now blocklist token =
      (if token_in_blocklist blocklist d.jti then .error .invalidToken
       else
         match verify d with
         | some e => .error e
         | none => .ok d) := by
  unfold TokenBearer.call TokenBearer.token_valid
  rw [hdec]
  rfl

theorem TokenBearer.call_ok_inv {verify : TokenPayload → Option AuthError}
    {secret : String} {now : Nat} {blocklist : List String} {token : Jwt}
    {d : TokenPayload}
    (h : TokenBearer.call verify secret now blocklist token = .ok d) :
    decode_token secret now token = some d ∧
      token_in_blocklist blocklist d.jti = false ∧ verify d = none := by
  cases hdec : decode_token secret now token with
  | none =>
    rw [TokenBearer.call_decode_none verify blocklist hdec] at h
    cases h
  | some p =>
    rw [TokenBearer.call_decode_some verify blocklist hdec] at h
    cases hbl : token_in_blocklist blocklist p.jti with
    | true => rw [hbl] at h; simp at h
    | false =>
      rw [if_neg (by simp [hbl])] at h
      cases hv : verify p with
      | some e => rw [hv] at h; simp at h
      | none =>
        rw [hv] at h
        simp only [Except.ok.injEq] at h
        subst h
        exact ⟨rfl, hbl, hv⟩

/-! ## Claim theorems -/

/-- **C1**: `TokenBearer.__call__` applies its checks in order: a decode
failure is rejected as `InvalidToken`; on a successful decode, a `jti` present
in the revocation store is rejected with the very same `InvalidToken` error
(revocation indistinguishable from invalidity to the caller); the kind check
`verify_token_data` is reached only when decode and revocation both pass, and
acceptance implies all of them passed; consequently a token whose `jti` is in
the blocklist is never accepted, at any current time — hence regardless of
expiry. -/
theorem tokenBearer_pipeline_order (verify : TokenPayload → Option AuthError)
    (secret : String) (now : Nat) (blocklist : List String) (token : Jwt) :
    (decode_token secret now token = none →
      TokenBearer.call verify secret now blocklist token = .error .invalidToken)
    ∧ (∀ d, decode_token secret now token = some d →
        token_in_blocklist blocklist d.jti = true →
        TokenBearer.call verify secret now blocklist token = .error .invalidToken)
    ∧ (∀ d, TokenBearer.call verify secret now blocklist token = .ok d →
        decode_token secret now token = some d ∧
          token_in_blocklist blocklist d.jti = false ∧ verify d = none)
    ∧ (token_in_blocklist blocklist token.payload.jti = true →
        ∀ d, ¬ TokenBearer.call verify secret now blocklist token = .ok d) := by
  refine ⟨fun hdec => TokenBearer.call_decode_none verify blocklist hdec,
    fun d hdec hbl => ?_, fun d h => TokenBearer.call_ok_inv h, fun hbl d h => ?_⟩
  · rw [TokenBearer.call_decode_some verify blocklist hdec, if_pos hbl]
  · obtain ⟨hdec, hmiss, -⟩ := TokenBearer.call_ok_inv h
    rw [decode_token_eq_payload hdec] at hmiss
    rw [hbl] at hmiss
    cases hmiss

/-- Witness for **C1**: a concrete well-signed, unexpired token whose `jti`
is blocklisted is not accepted. -/
theorem tokenBearer_pipeline_order_witness :
    token_in_blocklist ["j1"] sampleAccessTok.payload.jti = true ∧
      ¬ TokenBearer.call AccessTokenBearer.verify_token_data "s" 0 ["j1"]
          sampleAccessTok = .ok sampleAccessTok.payload :=
  ⟨by decide,
    (tokenBearer_pipeline_order AccessTokenBearer.verify_token_data "s" 0 ["j1"]
      sampleAccessTok).2.2.2 (by decide) sampleAccessTok.payload⟩

/-- **C2**: on a decodable, non-revoked token the access-required bearer
rejects with `AccessTokenRequired` exactly when the refresh flag is true, and
the refresh-required bearer rejects with `RefreshTokenRequired` exactly when
it is false; moreover, whatever the token, the access bearer only ever accepts
payloads with `refresh = false` and the refresh bearer only ever accepts
payloads with `refresh = true`. -/
theorem bearer_kind_checks (secret : String) (now : Nat)
    (blocklist : List String) (token : Jwt) :
    (∀ d, decode_token secret now token = some d →
      token_in_blocklist blocklist d.jti = false →
      (d.refresh = true →
        TokenBearer.call AccessTokenBearer.verify_token_data secret now blocklist
          token = .error .accessTokenRequired)
      ∧ (d.refresh = false →
        TokenBearer.call RefreshTokenBearer.verify_token_data secret now blocklist
          token = .error .refreshTokenRequired))
    ∧ (∀ d, TokenBearer.call AccessTokenBearer.verify_token_data secret now
        blocklist token = .ok d → d.refresh = false)
    ∧ (∀ d, TokenBearer.call RefreshTokenBearer.verify_token_data secret now
        blocklist token = .ok d → d.refresh = true) := by
  refine ⟨fun d hdec hbl => ⟨fun hr => ?_, fun hr => ?_⟩, fun d h => ?_, fun d h => ?_⟩
  · rw [TokenBearer.call_decode_some AccessTokenBearer.verify_token_data blocklist hdec,
      if_neg (by simp [hbl])]
    simp [AccessTokenBearer.verify_token_data, hr]
  · rw [TokenBearer.call_decode_some RefreshTokenBearer.verify_token_data blocklist hdec,
      if_neg (by simp [hbl])]
    simp [RefreshTokenBearer.verify_token_data, hr]
  · obtain ⟨-, -, hv⟩ := TokenBearer.call_ok_inv h
    unfold AccessTokenBearer.verify_token_data at hv
    cases hr : d.refresh with
    | false => rfl
    | true => rw [hr] at hv; cases hv
  · obtain ⟨-, -, hv⟩ := TokenBearer.call_ok_inv h
    unfold RefreshTokenBearer.verify_token_data at hv
    cases hr : d.refresh with
    | false => rw [hr] at hv; cases hv
    | true => rfl

/-- Witness for **C2**: a concrete valid refresh token presented to the
access-required bearer is rejected with `AccessTokenRequired`. -/
theorem bearer_kind_checks_witness :
    decode_token "s" 0 sampleRefreshTok = some sampleRefreshTok.payload ∧
      TokenBearer.call AccessTokenBearer.verify_token_data "s" 0 []
        sampleRefreshTok = .error .accessTokenRequired :=
  ⟨by decide,
    ((bearer_kind_checks "s" 0 [] sampleRefreshTok).1 sampleRefreshTok.payload
      (by decide) (by decide)).1 (by decide)⟩

/-- **C6**: the role gate checks account verification before role membership:
an unverified user is rejected with `AccountNotVerified` whatever their role
(even one in the allowed set); a verified user outside the allowed set is
rejected with `InsufficientPermission`; a verified user with an allowed role
is accepted. -/
theorem roleChecker_verification_before_role (allowed_roles : List String)
    (u : UserRec) :
    (u.is_verified = false → RoleChecker.call allowed_roles u = .accountNotVerified)
    ∧ (u.is_verified = true → allowed_roles.contains u.role = false →
        RoleChecker.call allowed_roles u = .insufficientPermission)
    ∧ (u.is_verified = true → allowed_roles.contains u.role = true →
        RoleChecker.call allowed_roles u = .accepted) := by
  unfold RoleChecker.call
  refine ⟨fun hv => ?_, fun hv hr => ?_, fun hv hr => ?_⟩
  · simp [hv]
  · simp [hv]
    simpa using hr
  · simp [hv]
    simpa using hr

/-- Witness for **C6**: a concrete unverified admin, whose role is in the
allowed set, is rejected with `AccountNotVerified`. -/
theorem roleChecker_verification_before_role_witness :
    RoleChecker.call ["admin", "user"]
        ⟨"u2", "root", "admin@x.com", "Ada", "Admin", "admin", false, "h2"⟩
      = .accountNotVerified :=
  (roleChecker_verification_before_role ["admin", "user"]
    ⟨"u2", "root", "admin@x.com", "Ada", "Admin", "admin", false, "h2"⟩).1 rfl

/-- **C7**: the password-reset-request handler returns the same successful
response whatever the user store holds (no account enumeration, never
`UserNotFound`), and that response enqueues exactly one mail to the given
address carrying a reset token whose data is keyed by that email. -/
theorem password_reset_request_no_enumeration (secret : String) (now : Nat)
    (users other_users : List UserRec) (email : String) :
    password_reset_request secret now users email
        = password_reset_request secret now other_users email
    ∧ (password_reset_request secret now users email).status_code = 200
    ∧ (password_reset_request secret now users email).message
        = "Password reset link sent! Please check your email to reset your password."
    ∧ (password_reset_request secret now users email).mail.recipients = [email]
    ∧ (password_reset_request secret now users email).mail.token.data
        = [("email", email)] :=
  ⟨rfl, rfl, rfl, rfl, rfl⟩

/-- **C10**: whatever the signup data, `UserService.create_user` stores the
new account with role `"user"` — the signup schema carries no role field and
the service overwrites the role unconditionally, so signup can never produce
an admin. The new user also starts unverified. -/
theorem create_user_role_is_user (hash_fn : String → String) (uid : String)
    (user_data : UserCreateModel) (users : List UserRec) :
    (UserService.create_user hash_fn uid user_data users).1.role = "user"
    ∧ (UserService.create_user hash_fn uid user_data users).1.is_verified = false
    ∧ (UserService.create_user hash_fn uid user_data users).2
        = users ++ [(UserService.create_user hash_fn uid user_data users).1] :=
  ⟨rfl, rfl, rfl⟩

/-- **C8**: decoding an encoded token with the signing secret returns the
full payload — in particular the embedded claims `c` — as long as the current
time is before the embedded expiry; once the expiry has elapsed decode returns
`none` rather than raising, and verification under any other key also returns
`none`. -/
theorem token_codec_roundtrip (secret : String) (now t : Nat) (jti : String)
    (c : UserClaims) (expiry : Option Nat) (refresh : Bool) :
    (t < (create_access_token secret now jti c expiry refresh).payload.exp →
      decode_token secret t (create_access_token secret now jti c expiry refresh)
          = some (create_access_token secret now jti c expiry refresh).payload
      ∧ (decode_token secret t
            (create_access_token secret now jti c expiry refresh)).map
          TokenPayload.user = some c)
    ∧ ((create_access_token secret now jti c expiry refresh).payload.exp ≤ t →
        decode_token secret t (create_access_token secret now jti c expiry refresh)
          = none)
    ∧ (∀ k, k ≠ secret →
        decode_token k t (create_access_token secret now jti c expiry refresh)
          = none) := by
  refine ⟨fun ht => ?_, fun ht => ?_, fun k hk => ?_⟩
  · have hdec : decode_token secret t
        (create_access_token secret now jti c expiry refresh)
        = some (create_access_token secret now jti c expiry refresh).payload := by
      unfold decode_token
      exact if_pos ⟨rfl, ht⟩
    exact ⟨hdec, by rw [hdec]; rfl⟩
  · have hcond :
        ¬((create_access_token secret now jti c expiry refresh).signedWith = secret
          ∧ t < (create_access_token secret now jti c expiry refresh).payload.exp) := by
      rintro ⟨-, h⟩
      omega
    unfold decode_token
    exact if_neg hcond
  · have hcond :
        ¬((create_access_token secret now jti c expiry refresh).signedWith = k
          ∧ t < (create_access_token secret now jti c expiry refresh).payload.exp) := by
      rintro ⟨h, -⟩
      exact hk h.symm
    unfold decode_token
    exact if_neg hcond

/-- Witness for **C8**: with concrete inputs, before expiry the payload is
recovered, and after expiry the decode returns `none`. -/
theorem token_codec_roundtrip_witness :
    (10 < (create_access_token "s" 0 "j1" sampleClaims none false).payload.exp
      ∧ decode_token "s" 10 (create_access_token "s" 0 "j1" sampleClaims none false)
          = some (create_access_token "s" 0 "j1" sampleClaims none false).payload)
    ∧ ((create_access_token "s" 0 "j1" sampleClaims none false).payload.exp ≤ 5000
      ∧ decode_token "s" 5000 (create_access_token "s" 0 "j1" sampleClaims none false)
          = none) :=
  ⟨⟨by decide,
      ((token_codec_roundtrip "s" 0 10 "j1" sampleClaims none false).1 (by decide)).1⟩,
    ⟨by decide,
      (token_codec_roundtrip "s" 0 5000 "j1" sampleClaims none false).2.1 (by decide)⟩⟩

/-- **C5**: login fails with `UserNotFound` and issues no tokens when no user
has the email; fails with `InvalidCredentials` and issues no tokens when the
password does not verify; otherwise it returns exactly one access token
(`refresh = false`) and one refresh token (`refresh = true`) carrying the same
identity claims, the refresh expiry strictly later than the access expiry,
plus the public user summary — which is built only from `uid`, `email`,
`first_name` and `last_name`, hence is independent of the stored credential
hash. -/
theorem login_users_spec (verify_pw : String → String → Bool) (secret : String)
    (now : Nat) (jti_access jti_refresh : String) (users : List UserRec)
    (email password : String) :
    (UserService.get_user_by_email email users = none →
      login_users verify_pw secret now jti_access jti_refresh users email password
        = .userNotFound)
    ∧ (∀ user, UserService.get_user_by_email email users = some user →
        verify_pw password user.password_hash = false →
        login_users verify_pw secret now jti_access jti_refresh users email password
          = .invalidCredentials)
    ∧ (∀ user, UserService.get_user_by_email email users = some user →
        verify_pw password user.password_hash = true →
        ∃ a r,
          login_users verify_pw secret now jti_access jti_refresh users email
              password = .success a r (login_user_summary user)
          ∧ a.payload.refresh = false ∧ r.payload.refresh = true
          ∧ a.payload.user = r.payload.user
          ∧ a.payload.user = ⟨user.email, user.uid, user.role⟩
          ∧ a.payload.exp < r.payload.exp)
    ∧ (∀ (uid un em fn ln ro : String) (v : Bool) (h1 h2 : String),
        login_user_summary ⟨uid, un, em, fn, ln, ro, v, h1⟩
          = login_user_summary ⟨uid, un, em, fn, ln, ro, v, h2⟩) := by
  refine ⟨fun h => ?_, fun user hu hv => ?_, fun user hu hv => ?_,
    fun uid un em fn ln ro v h1 h2 => rfl⟩
  · unfold login_users
    rw [h]
  · unfold login_users
    rw [hu]
    simp [hv]
  · refine ⟨create_access_token secret now jti_access
        ⟨user.email, user.uid, user.role⟩ none false,
      create_access_token secret now jti_refresh
        ⟨user.email, user.uid, user.role⟩
        (some (REFRESH_TOKEN_EXPIRE_DAYS * 86400)) true,
      ?_, rfl, rfl, rfl, rfl, ?_⟩
    · unfold login_users
      rw [hu]
      simp [hv]
    · simp [create_access_token, ACCESS_TOKEN_EXPIRY, REFRESH_TOKEN_EXPIRE_DAYS]

/-- Witness for **C5**: with a concrete one-user store, a wrong password is
rejected with `InvalidCredentials`. -/
theorem login_users_spec_witness :
    UserService.get_user_by_email "a@x.com" [sampleUser] = some sampleUser
    ∧ login_users (fun _ _ => false) "s" 0 "j1" "j2" [sampleUser] "a@x.com"
        "wrong-pw" = .invalidCredentials :=
  ⟨by decide,
    (login_users_spec (fun _ _ => false) "s" 0 "j1" "j2" [sampleUser] "a@x.com"
      "wrong-pw").2.1 sampleUser (by decide) rfl⟩

/-- **C3** (code defect): `decode_urlsafe_token` calls `serializer.loads`
without any `max_age` argument, so the timestamp itsdangerous embedded at
creation is never checked — the function does not even take a notion of
current time. A token created at any `createdAt` decodes to its data no matter
how much time has elapsed since, and the decode result is independent of the
creation time; this contradicts the claim and the function's own docstring
("None if the token is invalid or expired"). -/
theorem decode_urlsafe_ignores_age (secret : String)
    (data : List (String × String)) (createdAt otherCreatedAt : Nat) :
    decode_urlsafe_token secret (create_urlsafe_token secret createdAt data)
        = some data
    ∧ decode_urlsafe_token secret (create_urlsafe_token secret createdAt data)
        = decode_urlsafe_token secret
            (create_urlsafe_token secret otherCreatedAt data) :=
  ⟨by simp [decode_urlsafe_token, create_urlsafe_token], rfl⟩

/-- **C4** (code defect): on a garbled token — here one signed with a
different secret, so the itsdangerous signature check fails —
`decode_urlsafe_token` returns `None` without raising, the route's `except`
branch (which would return `InvalidVerificationToken`) never runs, and the
next line `decoded_token.get("email")` executes on `None`, raising an
unhandled `AttributeError`: the verification operation crashes instead of
failing with `InvalidVerificationToken`. No user is modified. -/
theorem verify_user_account_garbled_crashes :
    verify_user_account "secret" [sampleUser]
        ⟨[("email", "a@x.com")], 0, "attacker-secret", EMAIL_SALT⟩
      = (.attributeError, [sampleUser]) := by decide

/-- **C9**: both opaque-token flows run through the single module-level
serializer (same secret, same `EMAIL_SALT`), so the two token kinds are
interchangeable: the token a password-reset request issues is literally the
token signup would issue for the same email; it is accepted by the
account-verification route, which marks that email's account verified; and a
signup verification token is accepted by the password-reset-confirm route. -/
theorem opaque_token_flows_interchangeable (secret : String) (now now2 : Nat)
    (users : List UserRec) (email : String) (user : UserRec)
    (hash_fn : String → String) (pw : String)
    (he : ¬ email = "")
    (hu : UserService.get_user_by_email email users = some user) :
    (password_reset_request secret now users email).mail.token
        = signup_verification_token secret now email
    ∧ verify_user_account secret users
        (password_reset_request secret now users email).mail.token
      = (.verified, updateFirstByEmail email setVerified users)
    ∧ (reset_account_password hash_fn secret users
        (signup_verification_token secret now2 email) pw pw).1
      = .passwordReset := by
  refine ⟨rfl, ?_, ?_⟩
  · simp [verify_user_account, password_reset_request, decode_urlsafe_token,
      create_urlsafe_token, dictGet, he, hu]
  · simp [reset_account_password, signup_verification_token, decode_urlsafe_token,
      create_urlsafe_token, dictGet, he, hu]

/-- Witness for **C9**: with a concrete store holding the `a@x.com` user, the
reset-request token verifies that account. -/
theorem opaque_token_flows_interchangeable_witness :
    ¬ ("a@x.com" : String) = ""
    ∧ UserService.get_user_by_email "a@x.com" [sampleUser] = some sampleUser
    ∧ verify_user_account "s" [sampleUser]
        (password_reset_request "s" 0 [sampleUser] "a@x.com").mail.token
      = (.verified, updateFirstByEmail "a@x.com" setVerified [sampleUser]) :=
  ⟨by decide, by decide,
    (opaque_token_flows_interchangeable "s" 0 0 [sampleUser] "a@x.com" sampleUser
      (fun s => s) "newpw1" (by decide) (by decide)).2.1⟩
